import Mathlib

/-
Verification of the actsnclass classifier module (src/actsnclass/classifiers.py).

The module contains two functions:
  - mlflow_tracking_And_Registry(clf, train_features): a sequence of calls to
    the mlflow tracking and registry service, plus one local CSV write;
  - random_forest(train_features, train_labels, test_features, nest, seed,
    max_depth, n_jobs, mlflow): delegates to the sklearn
    RandomForestClassifier, then optionally invokes the recorder.

Shallow embedding choices:
  - External effects of the recorder are modelled as a trace of Event values
    paired with an Except outcome.  An MLflowAPI oracle decides, per external
    call, whether that call raises; it also supplies the run identifier and
    the registry version that the real service would return.  The Python
    construct with mlflow.start_run(...) guarantees the run is closed on every
    exit path, so the embedding appends the end_run event unconditionally once
    the run was opened.
  - The sklearn library is modelled as an abstract SKLearn structure whose
    operations may fail (Except), since the repository only forwards to it.
    The classifier enters the recorder only through get_params, so the
    embedding of the recorder receives that parameter list.
  - Feature matrices are lists of rows of rationals; labels are integers;
    probabilities are rationals (floating point tolerance becomes exactness).
  - datetime.now().strftime is modelled by a Date record and strftime_dmy,
    the day-month-year rendering used in the source.
-/

namespace ActSNClass

/-- One observable effect of mlflow_tracking_And_Registry: a call to the
tracking or registry service, or the local CSV write. -/
inductive Event where
  | set_experiment (name : String)
  | autolog
  | start_run (run_name : String)
  | log_param (key : String) (value : String)
  | to_csv (file : String) (index : Bool) (rows : List (List ℚ))
  | log_artifact (file : String)
  | log_model (name : String)
  | register_model (uri : String) (name : String)
  | update_model_version (name : String) (version : Nat) (description : String)
  | end_run
deriving DecidableEq

/-- Environment oracle for the external tracking service: the run identifier
and registered version it hands back, and which of its calls raise. -/
structure MLflowAPI where
  run_id : String
  registered_version : Nat
  set_experiment_fails : Bool
  autolog_fails : Bool
  start_run_fails : Bool
  log_param_fails : String → Bool
  to_csv_fails : Bool
  log_artifact_fails : Bool
  log_model_fails : Bool
  register_model_fails : Bool
  update_desc_fails : Bool

/-- A calendar date as used by datetime.now(). -/
structure Date where
  day : Nat
  month : Nat
  year : Nat

/-- Two-digit zero padded rendering, as strftime does for %d and %m. -/
def pad2 (n : Nat) : String :=
  if n < 10 then "0" ++ toString n else toString n

/-- The strftime format string %d-%m-%Y from the source. -/
def strftime_dmy (d : Date) : String :=
  pad2 d.day ++ "-" ++ pad2 d.month ++ "-" ++ toString d.year

/-- Result of a side effecting block: the trace of performed effects and
either normal return or a propagating error. -/
abbrev TrackResult := List Event × Except String Unit

/-- One external call: if the oracle says it fails, it raises and performs
nothing; otherwise it performs its one effect. -/
def step (fails : Bool) (e : Event) (msg : String) : TrackResult :=
  if fails then ([], Except.error msg) else ([e], Except.ok ())

/-- Sequencing of two effectful blocks: the second runs only when the first
returned normally; traces accumulate; the first error propagates. -/
def andThen (a : TrackResult) (b : Unit → TrackResult) : TrackResult :=
  match a with
  | (t, Except.ok _) =>
      match b () with
      | (t2, r) => (t ++ t2, r)
  | (t, Except.error e) => (t, Except.error e)

/-- The loop for param_name, param_value in params.items() performing
mlflow.log_param(param_name, param_value) on each pair. -/
def logParamsLoop (fails : String → Bool) : List (String × String) → TrackResult
  | [] => ([], Except.ok ())
  | (k, v) :: rest =>
      if fails k then ([], Except.error ("log_param " ++ k))
      else
        match logParamsLoop fails rest with
        | (t, r) => (Event.log_param k v :: t, r)

/-- The run name: the literal Train_size_ followed by train_size, the row
count train_features.shape[0]; the f-string is written with String append. -/
def run_name_of (train_features : List (List ℚ)) : String :=
  "Train_size_" ++ toString train_features.length

/-- The model name: the literal Random_Forest_Experiment_ followed by the
current date string. -/
def model_name_of (current_date : String) : String :=
  "Random_Forest_Experiment_" ++ current_date

/-- Body of the with mlflow.start_run(run_name=run_name) block: log each
classifier parameter, write train_sample.csv with index=False and attach it,
log the model under model_name, register runs:/run_id/model_name, and attach
the dated description to the registered version. -/
def runBody (api : MLflowAPI) (current_date : String)
    (params : List (String × String)) (train_features : List (List ℚ)) :
    TrackResult :=
  andThen (logParamsLoop api.log_param_fails params) fun _ =>
  andThen (step api.to_csv_fails
      (Event.to_csv "train_sample.csv" false train_features) "to_csv") fun _ =>
  andThen (step api.log_artifact_fails
      (Event.log_artifact "train_sample.csv") "log_artifact") fun _ =>
  andThen (step api.log_model_fails
      (Event.log_model (model_name_of current_date)) "log_model") fun _ =>
  andThen (step api.register_model_fails
      (Event.register_model
        ("runs:/" ++ api.run_id ++ "/" ++ model_name_of current_date)
        (model_name_of current_date)) "register_model") fun _ =>
  step api.update_desc_fails
    (Event.update_model_version (model_name_of current_date)
      api.registered_version
      ("Random Forest model registered on " ++ current_date))
    "update_model_version"

/-- The function mlflow_tracking_And_Registry: select the experiment,
enable autolog, open the run named after the training size, run the body, and
close the run on every exit path of the body (the with statement). The
classifier is represented by its get_params mapping, its only use here. -/
def mlflow_tracking_And_Registry (api : MLflowAPI) (now : Date)
    (params : List (String × String)) (train_features : List (List ℚ)) :
    TrackResult :=
  andThen (step api.set_experiment_fails
      (Event.set_experiment "Random_Forest_Experiment") "set_experiment") fun _ =>
  andThen (step api.autolog_fails Event.autolog "autolog") fun _ =>
  if api.start_run_fails then ([], Except.error "start_run")
  else
    match runBody api (strftime_dmy now) params train_features with
    | (t, r) =>
        (Event.start_run (run_name_of train_features) :: (t ++ [Event.end_run]), r)

/-- Constructor arguments of RandomForestClassifier as used in the source:
n_estimators, random_state, max_depth, n_jobs. -/
structure RFParams where
  n_estimators : Nat
  random_state : Nat
  max_depth : Option Nat
  n_jobs : Int
deriving DecidableEq

/-- The sklearn surface the repository consumes, abstracted: a constructor,
fit, predict, predict_proba (each of which may raise) and get_params. -/
structure SKLearn (Clf : Type) where
  RandomForestClassifier : RFParams → Clf
  fit : Clf → List (List ℚ) → List ℤ → Except String Clf
  predict : Clf → List (List ℚ) → Except String (List ℤ)
  predict_proba : Clf → List (List ℚ) → Except String (List (List ℚ))
  get_params : Clf → List (String × String)

/-- The function random_forest: build the classifier, fit, predict, take the
probabilities, optionally invoke the recorder, and return the pair.  The
result carries the trace of tracking effects together with the returned pair
or the propagating error. -/
def random_forest {Clf : Type} (sk : SKLearn Clf) (api : MLflowAPI) (now : Date)
    (train_features : List (List ℚ)) (train_labels : List ℤ)
    (test_features : List (List ℚ))
    (nest : Nat) (seed : Nat) (max_depth : Option Nat) (n_jobs : Int)
    (mlflow : Bool) :
    List Event × Except String (List ℤ × List (List ℚ)) :=
  match sk.fit (sk.RandomForestClassifier ⟨nest, seed, max_depth, n_jobs⟩)
      train_features train_labels with
  | Except.error e => ([], Except.error e)
  | Except.ok clf =>
    match sk.predict clf test_features with
    | Except.error e => ([], Except.error e)
    | Except.ok predictions =>
      match sk.predict_proba clf test_features with
      | Except.error e => ([], Except.error e)
      | Except.ok prob =>
        if mlflow then
          match mlflow_tracking_And_Registry api now (sk.get_params clf)
              train_features with
          | (t, Except.ok _) => (t, Except.ok (predictions, prob))
          | (t, Except.error e) => (t, Except.error e)
        else ([], Except.ok (predictions, prob))

/-- Default value of the nest argument in the source signature. -/
def nest_default : Nat := 1000

/-- Default value of the seed argument in the source signature. -/
def seed_default : Nat := 42

/-- Default value of the max_depth argument in the source signature. -/
def max_depth_default : Option Nat := none

/-- Default value of the n_jobs argument in the source signature. -/
def n_jobs_default : Int := 1

/-- Default value of the mlflow flag in the source signature. -/
def mlflow_default : Bool := false

/-- random_forest called with only the required arguments, every optional
argument taking its default from the source signature. -/
def random_forest_no_optional {Clf : Type} (sk : SKLearn Clf) (api : MLflowAPI)
    (now : Date) (train_features : List (List ℚ)) (train_labels : List ℤ)
    (test_features : List (List ℚ)) :
    List Event × Except String (List ℤ × List (List ℚ)) :=
  random_forest sk api now train_features train_labels test_features
    nest_default seed_default max_depth_default n_jobs_default mlflow_default

/-- The number of distinct labels seen in training, the column count of the
probability matrix promised by the library (its classes_ attribute). -/
def distinct_label_count (train_labels : List ℤ) : Nat :=
  train_labels.dedup.length

/-- Library contract for predict: the returned prediction list has one entry
per row of the test features. -/
def PredictLengthContract {Clf : Type} (sk : SKLearn Clf) : Prop :=
  ∀ clf xf p, sk.predict clf xf = Except.ok p → p.length = xf.length

/-- Library contract for predict_proba on a fitted classifier: one row per
test row, one column per distinct training label, each row summing to one. -/
def ProbaShapeContract {Clf : Type} (sk : SKLearn Clf) : Prop :=
  ∀ clf0 tf tl clf xf q, sk.fit clf0 tf tl = Except.ok clf →
    sk.predict_proba clf xf = Except.ok q →
    q.length = xf.length ∧
    ∀ row ∈ q, row.length = distinct_label_count tl ∧ row.sum = 1

/-- A probability row assigning equal mass to each of n classes. -/
def uniform_row (n : Nat) : List ℚ :=
  List.replicate n (1 / (n : ℚ))

/-- A small concrete model of the sklearn surface, used to evaluate the
theorems on concrete inputs: the fitted classifier remembers the training
labels, predict answers zero everywhere, predict_proba spreads mass uniformly
over the distinct training labels, and fitting an empty label list raises. -/
def demoSK : SKLearn (List ℤ) where
  RandomForestClassifier := fun _ => []
  fit := fun _ _ train_labels =>
    if train_labels.isEmpty then Except.error "empty training set"
    else Except.ok train_labels
  predict := fun _ test_features => Except.ok (test_features.map fun _ => 0)
  predict_proba := fun clf test_features =>
    Except.ok (test_features.map fun _ => uniform_row (distinct_label_count clf))
  get_params := fun _ => [("n_estimators", "1000")]

/-- A tracking environment in which every external call succeeds, used for
concrete evaluations. -/
def okApi : MLflowAPI where
  run_id := "r1"
  registered_version := 1
  set_experiment_fails := false
  autolog_fails := false
  start_run_fails := false
  log_param_fails := fun _ => false
  to_csv_fails := false
  log_artifact_fails := false
  log_model_fails := false
  register_model_fails := false
  update_desc_fails := false

/-- A tracking environment whose very first external call, set_experiment,
raises; every later call would succeed. -/
def failApi : MLflowAPI where
  run_id := "r1"
  registered_version := 1
  set_experiment_fails := true
  autolog_fails := false
  start_run_fails := false
  log_param_fails := fun _ => false
  to_csv_fails := false
  log_artifact_fails := false
  log_model_fails := false
  register_model_fails := false
  update_desc_fails := false

theorem step_false (e : Event) (m : String) :
    step false e m = ([e], Except.ok ()) := rfl

theorem step_true (e : Event) (m : String) :
    step true e m = ([], Except.error m) := rfl

theorem andThen_ok (t : List Event) (b : Unit → TrackResult) :
    andThen (t, Except.ok ()) b = (t ++ (b ()).1, (b ()).2) := rfl

theorem andThen_error (t : List Event) (e : String) (b : Unit → TrackResult) :
    andThen (t, Except.error e) b = (t, Except.error e) := rfl

theorem mem_andThen {e : Event} {a : TrackResult} {b : Unit → TrackResult}
    (h : e ∈ (andThen a b).1) : e ∈ a.1 ∨ e ∈ (b ()).1 := by
  obtain ⟨t, r⟩ := a
  cases r with
  | ok u =>
      cases u
      rw [andThen_ok] at h
      simpa using h
  | error msg =>
      rw [andThen_error] at h
      exact Or.inl h

theorem mem_step {e e0 : Event} {f : Bool} {m : String}
    (h : e ∈ (step f e0 m).1) : e = e0 := by
  cases f
  · simp [step] at h; exact h
  · simp [step] at h

theorem loop_cons_false {f : String → Bool} {k v : String}
    {rest : List (String × String)} (hf : ¬ f k = true) :
    logParamsLoop f ((k, v) :: rest) =
      (Event.log_param k v :: (logParamsLoop f rest).1,
        (logParamsLoop f rest).2) := by
  simp [logParamsLoop, hf]

theorem mem_logParamsLoop {e : Event} {f : String → Bool} :
    ∀ {ps : List (String × String)}, e ∈ (logParamsLoop f ps).1 →
      ∃ k v, (k, v) ∈ ps ∧ e = Event.log_param k v := by
  intro ps
  induction ps with
  | nil => intro h; simp [logParamsLoop] at h
  | cons kv rest ih =>
      obtain ⟨k, v⟩ := kv
      intro h
      by_cases hf : f k
      · simp [logParamsLoop, hf] at h
      · rw [loop_cons_false hf] at h
        rcases List.mem_cons.mp h with h2 | h2
        · exact ⟨k, v, by simp, h2⟩
        · obtain ⟨k2, v2, hmem, he⟩ := ih h2
          exact ⟨k2, v2, by simp [hmem], he⟩

theorem andThen_snd_ok {a : TrackResult} {b : Unit → TrackResult}
    (h : (andThen a b).2 = Except.ok ()) :
    a.2 = Except.ok () ∧ (b ()).2 = Except.ok () := by
  obtain ⟨t, r⟩ := a
  cases r with
  | ok u =>
      cases u
      rw [andThen_ok] at h
      exact ⟨rfl, h⟩
  | error msg =>
      rw [andThen_error] at h
      exact absurd h (by simp)

theorem step_snd_ok {f : Bool} {e : Event} {m : String}
    (h : (step f e m).2 = Except.ok ()) : f = false := by
  cases f
  · rfl
  · rw [step_true] at h; exact absurd h (by simp)

theorem logParamsLoop_ok {f : String → Bool} :
    ∀ {ps : List (String × String)}, (logParamsLoop f ps).2 = Except.ok () →
      (logParamsLoop f ps).1 = ps.map fun kv => Event.log_param kv.1 kv.2 := by
  intro ps
  induction ps with
  | nil => intro _; rfl
  | cons kv rest ih =>
      obtain ⟨k, v⟩ := kv
      intro h
      by_cases hf : f k
      · simp [logParamsLoop, hf] at h
      · rw [loop_cons_false hf] at h ⊢
        simp only [List.map_cons]
        rw [ih h]

theorem tracking_unfold (api : MLflowAPI) (now : Date)
    (params : List (String × String)) (tf : List (List ℚ)) :
    mlflow_tracking_And_Registry api now params tf =
      andThen (step api.set_experiment_fails
          (Event.set_experiment "Random_Forest_Experiment") "set_experiment")
        fun _ =>
      andThen (step api.autolog_fails Event.autolog "autolog") fun _ =>
      if api.start_run_fails then ([], Except.error "start_run")
      else
        (Event.start_run (run_name_of tf) ::
            ((runBody api (strftime_dmy now) params tf).1 ++ [Event.end_run]),
          (runBody api (strftime_dmy now) params tf).2) := rfl

theorem mem_runBody {e : Event} {api : MLflowAPI} {cd : String}
    {params : List (String × String)} {tf : List (List ℚ)}
    (h : e ∈ (runBody api cd params tf).1) :
    (∃ k v, (k, v) ∈ params ∧ e = Event.log_param k v) ∨
    e = Event.to_csv "train_sample.csv" false tf ∨
    e = Event.log_artifact "train_sample.csv" ∨
    e = Event.log_model (model_name_of cd) ∨
    e = Event.register_model ("runs:/" ++ api.run_id ++ "/" ++ model_name_of cd)
          (model_name_of cd) ∨
    e = Event.update_model_version (model_name_of cd) api.registered_version
          ("Random Forest model registered on " ++ cd) := by
  unfold runBody at h
  rcases mem_andThen h with h | h
  · exact Or.inl (mem_logParamsLoop h)
  rcases mem_andThen h with h | h
  · exact Or.inr (Or.inl (mem_step h))
  rcases mem_andThen h with h | h
  · exact Or.inr (Or.inr (Or.inl (mem_step h)))
  rcases mem_andThen h with h | h
  · exact Or.inr (Or.inr (Or.inr (Or.inl (mem_step h))))
  rcases mem_andThen h with h | h
  · exact Or.inr (Or.inr (Or.inr (Or.inr (Or.inl (mem_step h)))))
  · exact Or.inr (Or.inr (Or.inr (Or.inr (Or.inr (mem_step h)))))

theorem mem_tracking {e : Event} {api : MLflowAPI} {now : Date}
    {params : List (String × String)} {tf : List (List ℚ)}
    (h : e ∈ (mlflow_tracking_And_Registry api now params tf).1) :
    e = Event.set_experiment "Random_Forest_Experiment" ∨
    e = Event.autolog ∨
    e = Event.start_run (run_name_of tf) ∨
    (∃ k v, (k, v) ∈ params ∧ e = Event.log_param k v) ∨
    e = Event.to_csv "train_sample.csv" false tf ∨
    e = Event.log_artifact "train_sample.csv" ∨
    e = Event.log_model (model_name_of (strftime_dmy now)) ∨
    e = Event.register_model
          ("runs:/" ++ api.run_id ++ "/" ++ model_name_of (strftime_dmy now))
          (model_name_of (strftime_dmy now)) ∨
    e = Event.update_model_version (model_name_of (strftime_dmy now))
          api.registered_version
          ("Random Forest model registered on " ++ strftime_dmy now) ∨
    e = Event.end_run := by
  rw [tracking_unfold] at h
  rcases mem_andThen h with h | h
  · exact Or.inl (mem_step h)
  rcases mem_andThen h with h | h
  · exact Or.inr (Or.inl (mem_step h))
  by_cases hs : api.start_run_fails
  · simp [hs] at h
  · rw [if_neg hs] at h
    rcases List.mem_cons.mp h with h | h
    · exact Or.inr (Or.inr (Or.inl h))
    rcases List.mem_append.mp h with h | h
    · rcases mem_runBody h with h | h | h | h | h | h
      · exact Or.inr (Or.inr (Or.inr (Or.inl h)))
      · exact Or.inr (Or.inr (Or.inr (Or.inr (Or.inl h))))
      · exact Or.inr (Or.inr (Or.inr (Or.inr (Or.inr (Or.inl h)))))
      · exact Or.inr (Or.inr (Or.inr (Or.inr (Or.inr (Or.inr (Or.inl h))))))
      · exact Or.inr (Or.inr (Or.inr (Or.inr (Or.inr (Or.inr (Or.inr (Or.inl h)))))))
      · exact Or.inr (Or.inr (Or.inr (Or.inr (Or.inr (Or.inr (Or.inr (Or.inr (Or.inl h))))))))
    · simp only [List.mem_singleton] at h
      exact Or.inr (Or.inr (Or.inr (Or.inr (Or.inr (Or.inr (Or.inr (Or.inr (Or.inr h))))))))

theorem runBody_ok_trace {api : MLflowAPI} {cd : String}
    {params : List (String × String)} {tf : List (List ℚ)}
    (h : (runBody api cd params tf).2 = Except.ok ()) :
    (runBody api cd params tf).1 =
      (params.map fun kv => Event.log_param kv.1 kv.2) ++
      [Event.to_csv "train_sample.csv" false tf,
       Event.log_artifact "train_sample.csv",
       Event.log_model (model_name_of cd),
       Event.register_model
         ("runs:/" ++ api.run_id ++ "/" ++ model_name_of cd) (model_name_of cd),
       Event.update_model_version (model_name_of cd) api.registered_version
         ("Random Forest model registered on " ++ cd)] := by
  unfold runBody at h ⊢
  obtain ⟨hloop, h⟩ := andThen_snd_ok h
  obtain ⟨h1, h⟩ := andThen_snd_ok h
  obtain ⟨h2, h⟩ := andThen_snd_ok h
  obtain ⟨h3, h⟩ := andThen_snd_ok h
  obtain ⟨h4, h5⟩ := andThen_snd_ok h
  rw [step_snd_ok h1, step_snd_ok h2, step_snd_ok h3, step_snd_ok h4,
    step_snd_ok h5]
  have hpair : logParamsLoop api.log_param_fails params =
      ((params.map fun kv => Event.log_param kv.1 kv.2), Except.ok ()) :=
    Prod.ext_iff.mpr ⟨logParamsLoop_ok hloop, hloop⟩
  simp [andThen, step, hpair]

theorem tracking_ok_trace {api : MLflowAPI} {now : Date}
    {params : List (String × String)} {tf : List (List ℚ)}
    (h : (mlflow_tracking_And_Registry api now params tf).2 = Except.ok ()) :
    (mlflow_tracking_And_Registry api now params tf).1 =
      [Event.set_experiment "Random_Forest_Experiment", Event.autolog,
       Event.start_run (run_name_of tf)] ++
      (params.map fun kv => Event.log_param kv.1 kv.2) ++
      [Event.to_csv "train_sample.csv" false tf,
       Event.log_artifact "train_sample.csv",
       Event.log_model (model_name_of (strftime_dmy now)),
       Event.register_model
         ("runs:/" ++ api.run_id ++ "/" ++ model_name_of (strftime_dmy now))
         (model_name_of (strftime_dmy now)),
       Event.update_model_version (model_name_of (strftime_dmy now))
         api.registered_version
         ("Random Forest model registered on " ++ strftime_dmy now),
       Event.end_run] := by
  rw [tracking_unfold] at h ⊢
  obtain ⟨h1, h⟩ := andThen_snd_ok h
  obtain ⟨h2, h⟩ := andThen_snd_ok h
  rw [step_snd_ok h1, step_snd_ok h2]
  by_cases hs : api.start_run_fails
  · rw [if_pos hs] at h; exact absurd h (by simp)
  · rw [if_neg hs] at h ⊢
    simp only at h
    rw [runBody_ok_trace h]
    simp [andThen, step]

theorem tracking_ends_end_run {api : MLflowAPI} {now : Date}
    {params : List (String × String)} {tf : List (List ℚ)} {rn : String}
    (h : Event.start_run rn ∈ (mlflow_tracking_And_Registry api now params tf).1) :
    ∃ t, (mlflow_tracking_And_Registry api now params tf).1 =
      t ++ [Event.end_run] := by
  rw [tracking_unfold] at h ⊢
  by_cases h1 : api.set_experiment_fails
  · simp [h1, step, andThen] at h
  by_cases h2 : api.autolog_fails
  · simp [h1, h2, step, andThen] at h
  by_cases hs : api.start_run_fails
  · simp [h1, h2, hs, step, andThen] at h
  · refine ⟨Event.set_experiment "Random_Forest_Experiment" :: Event.autolog ::
      Event.start_run (run_name_of tf) ::
      (runBody api (strftime_dmy now) params tf).1, ?_⟩
    simp [h1, h2, hs, step, andThen]


theorem logParamsLoop_no_fail (ps : List (String × String)) :
    logParamsLoop (fun _ => false) ps =
      ((ps.map fun kv => Event.log_param kv.1 kv.2), Except.ok ()) := by
  induction ps with
  | nil => rfl
  | cons kv rest ih =>
      obtain ⟨k, v⟩ := kv
      simp [logParamsLoop, ih]

theorem okApi_tracking_ok (now : Date) (ps : List (String × String))
    (tf : List (List ℚ)) :
    (mlflow_tracking_And_Registry okApi now ps tf).2 = Except.ok () := by
  rw [tracking_unfold]
  simp [okApi, step, andThen, runBody, logParamsLoop_no_fail]

theorem random_forest_cases {Clf : Type} (sk : SKLearn Clf) (api : MLflowAPI)
    (now : Date) (tf : List (List ℚ)) (tl : List ℤ) (xf : List (List ℚ))
    (nest seed : Nat) (md : Option Nat) (nj : Int) (fl : Bool) :
    (∃ e, (random_forest sk api now tf tl xf nest seed md nj fl).2 =
        Except.error e) ∨
    (∃ clf p q,
      sk.fit (sk.RandomForestClassifier ⟨nest, seed, md, nj⟩) tf tl =
        Except.ok clf ∧
      sk.predict clf xf = Except.ok p ∧
      sk.predict_proba clf xf = Except.ok q ∧
      (random_forest sk api now tf tl xf nest seed md nj fl).2 =
        Except.ok (p, q)) := by
  rcases hfit : sk.fit (sk.RandomForestClassifier ⟨nest, seed, md, nj⟩) tf tl
    with e | clf
  · exact Or.inl ⟨e, by simp [random_forest, hfit]⟩
  rcases hp : sk.predict clf xf with e | p
  · exact Or.inl ⟨e, by simp [random_forest, hfit, hp]⟩
  rcases hq : sk.predict_proba clf xf with e | q
  · exact Or.inl ⟨e, by simp [random_forest, hfit, hp, hq]⟩
  cases fl
  · exact Or.inr ⟨clf, p, q, rfl, hp, hq,
      by simp [random_forest, hfit, hp, hq]⟩
  · rcases htr : mlflow_tracking_And_Registry api now (sk.get_params clf) tf
      with ⟨t, r⟩
    cases r with
    | ok u =>
        cases u
        exact Or.inr ⟨clf, p, q, rfl, hp, hq,
          by simp [random_forest, hfit, hp, hq, htr]⟩
    | error e =>
        exact Or.inl ⟨e, by simp [random_forest, hfit, hp, hq, htr]⟩

theorem random_forest_false_trace {Clf : Type} (sk : SKLearn Clf)
    (api : MLflowAPI) (now : Date) (tf : List (List ℚ)) (tl : List ℤ)
    (xf : List (List ℚ)) (nest seed : Nat) (md : Option Nat) (nj : Int) :
    (random_forest sk api now tf tl xf nest seed md nj false).1 = [] := by
  rcases hfit : sk.fit (sk.RandomForestClassifier ⟨nest, seed, md, nj⟩) tf tl
    with e | clf
  · simp [random_forest, hfit]
  rcases hp : sk.predict clf xf with e | p
  · simp [random_forest, hfit, hp]
  rcases hq : sk.predict_proba clf xf with e | q
  · simp [random_forest, hfit, hp, hq]
  · simp [random_forest, hfit, hp, hq]

theorem count_in_log_param_map (params : List (String × String)) (e : Event)
    (h : ∀ k v, e ≠ Event.log_param k v) :
    (params.map fun kv => Event.log_param kv.1 kv.2).count e = 0 := by
  rw [List.count_eq_zero]
  intro hmem
  obtain ⟨kv, _, hkv⟩ := List.mem_map.mp hmem
  exact h kv.1 kv.2 hkv.symm

theorem uniform_row_sum {n : Nat} (h : 0 < n) : (uniform_row n).sum = 1 := by
  have hn : (n : ℚ) ≠ 0 := Nat.cast_ne_zero.mpr h.ne'
  rw [uniform_row, List.sum_replicate, nsmul_eq_mul]
  field_simp

theorem uniform_row_length (n : Nat) : (uniform_row n).length = n := by
  simp [uniform_row]

theorem demoSK_predict_contract : PredictLengthContract demoSK := by
  intro clf xf p hp
  simp only [demoSK, Except.ok.injEq] at hp
  rw [hp.symm, List.length_map]

theorem demoSK_proba_contract : ProbaShapeContract demoSK := by
  intro clf0 tf tl clf xf q hfit hq
  simp only [demoSK] at hfit hq
  by_cases hemp : tl.isEmpty
  · simp [hemp] at hfit
  · rw [if_neg hemp] at hfit
    obtain rfl : tl = clf := by injection hfit
    obtain rfl : xf.map (fun _ => uniform_row (distinct_label_count tl)) = q := by
      injection hq
    have hpos : 0 < distinct_label_count tl := by
      rw [distinct_label_count, List.length_pos, Ne, List.dedup_eq_nil]
      intro hnil
      rw [hnil] at hemp
      exact hemp rfl
    refine ⟨List.length_map _ _, ?_⟩
    intro row hrow
    obtain ⟨x, _, hx⟩ := List.mem_map.mp hrow
    rw [hx.symm]
    exact ⟨uniform_row_length _, uniform_row_sum hpos⟩

/-- Claim C1: every run the Tracking Recorder opens is opened under the run
name Train_size_ followed by the row count of train_features; in particular a
training sample with 250 rows opens the run Train_size_250. -/
theorem run_name_matches_train_size (api : MLflowAPI) (now : Date)
    (params : List (String × String)) (tf : List (List ℚ)) (rn : String)
    (h : Event.start_run rn ∈
      (mlflow_tracking_And_Registry api now params tf).1) :
    rn = "Train_size_" ++ toString tf.length ∧
    (tf.length = 250 → rn = "Train_size_250") := by
  have hs : rn = run_name_of tf := by
    rcases mem_tracking h with
      h2 | h2 | h2 | ⟨k, v, _, h2⟩ | h2 | h2 | h2 | h2 | h2 | h2 <;> simp_all
  refine ⟨hs, fun h250 => ?_⟩
  rw [hs]
  simp only [run_name_of, h250]
  rfl

set_option maxRecDepth 8192 in
/-- Concrete check of run_name_matches_train_size on a 250 row training
sample in the all-success tracking environment. -/
theorem run_name_matches_train_size_witness :
    "Train_size_250" =
        "Train_size_" ++ toString (List.replicate 250 ([] : List ℚ)).length ∧
    ((List.replicate 250 ([] : List ℚ)).length = 250 →
      "Train_size_250" = "Train_size_250") :=
  run_name_matches_train_size okApi ⟨1, 1, 2026⟩ []
    (List.replicate 250 ([] : List ℚ)) "Train_size_250" (by decide)

/-- Claim C2: every model registration performed by the recorder uses the
name Random_Forest_Experiment_ followed by the current day-month-year date,
an artifact URI of the form runs:/ run identifier / model name, and every
description attached to a registered version contains that date string. -/
theorem registration_name_uri_description (api : MLflowAPI) (now : Date)
    (params : List (String × String)) (tf : List (List ℚ)) :
    (∀ uri name,
      Event.register_model uri name ∈
          (mlflow_tracking_And_Registry api now params tf).1 →
        name = "Random_Forest_Experiment_" ++ strftime_dmy now ∧
        uri = "runs:/" ++ api.run_id ++ "/" ++ name) ∧
    (∀ name ver desc,
      Event.update_model_version name ver desc ∈
          (mlflow_tracking_And_Registry api now params tf).1 →
        name = "Random_Forest_Experiment_" ++ strftime_dmy now ∧
        ∃ pre, desc = pre ++ strftime_dmy now) := by
  constructor
  · intro uri name h
    rcases mem_tracking h with
      h2 | h2 | h2 | ⟨k, v, _, h2⟩ | h2 | h2 | h2 | h2 | h2 | h2 <;>
      simp_all [model_name_of]
  · intro name ver desc h
    rcases mem_tracking h with
      h2 | h2 | h2 | ⟨k, v, _, h2⟩ | h2 | h2 | h2 | h2 | h2 | h2
    · exact absurd h2 (by simp)
    · exact absurd h2 (by simp)
    · exact absurd h2 (by simp)
    · exact absurd h2 (by simp)
    · exact absurd h2 (by simp)
    · exact absurd h2 (by simp)
    · exact absurd h2 (by simp)
    · exact absurd h2 (by simp)
    · rw [Event.update_model_version.injEq] at h2
      obtain ⟨hname, hver, hdesc⟩ := h2
      refine ⟨by rw [hname]; rfl, "Random Forest model registered on ",
        by rw [hdesc]⟩
    · exact absurd h2 (by simp)

/-- Concrete check of registration_name_uri_description in the all-success
environment on the date 01-01-2026. -/
theorem registration_name_uri_description_witness :
    ("Random_Forest_Experiment_01-01-2026" =
        "Random_Forest_Experiment_" ++ strftime_dmy ⟨1, 1, 2026⟩ ∧
     "runs:/r1/Random_Forest_Experiment_01-01-2026" =
        "runs:/" ++ okApi.run_id ++ "/" ++
          "Random_Forest_Experiment_01-01-2026") ∧
    ("Random_Forest_Experiment_01-01-2026" =
        "Random_Forest_Experiment_" ++ strftime_dmy ⟨1, 1, 2026⟩ ∧
     ∃ pre, "Random Forest model registered on 01-01-2026" =
        pre ++ strftime_dmy ⟨1, 1, 2026⟩) :=
  ⟨(registration_name_uri_description okApi ⟨1, 1, 2026⟩ [] [[]]).1
      "runs:/r1/Random_Forest_Experiment_01-01-2026"
      "Random_Forest_Experiment_01-01-2026" (by decide),
   (registration_name_uri_description okApi ⟨1, 1, 2026⟩ [] [[]]).2
      "Random_Forest_Experiment_01-01-2026" 1
      "Random Forest model registered on 01-01-2026" (by decide)⟩

/-- Claim C3: a fully successful invocation of the recorder performs, in this
order: select the experiment, enable autologging, open one run, log one
parameter per classifier hyperparameter, attach the data sample, attach the
model, register one model version, attach its description, close the run; and
whenever a run was opened the trace ends by closing it, whatever happened
inside the run scope. -/
theorem effect_order_and_scope_closure (api : MLflowAPI) (now : Date)
    (params : List (String × String)) (tf : List (List ℚ)) :
    ((mlflow_tracking_And_Registry api now params tf).2 = Except.ok () →
      (mlflow_tracking_And_Registry api now params tf).1 =
        [Event.set_experiment "Random_Forest_Experiment", Event.autolog,
         Event.start_run (run_name_of tf)] ++
        (params.map fun kv => Event.log_param kv.1 kv.2) ++
        [Event.to_csv "train_sample.csv" false tf,
         Event.log_artifact "train_sample.csv",
         Event.log_model (model_name_of (strftime_dmy now)),
         Event.register_model
           ("runs:/" ++ api.run_id ++ "/" ++ model_name_of (strftime_dmy now))
           (model_name_of (strftime_dmy now)),
         Event.update_model_version (model_name_of (strftime_dmy now))
           api.registered_version
           ("Random Forest model registered on " ++ strftime_dmy now),
         Event.end_run]) ∧
    (∀ rn,
      Event.start_run rn ∈ (mlflow_tracking_And_Registry api now params tf).1 →
      ∃ t, (mlflow_tracking_And_Registry api now params tf).1 =
        t ++ [Event.end_run]) :=
  ⟨fun h => tracking_ok_trace h, fun _ h => tracking_ends_end_run h⟩

/-- Concrete check of effect_order_and_scope_closure: the full trace of a
successful invocation with one hyperparameter, and its closing event. -/
theorem effect_order_and_scope_closure_witness :
    (mlflow_tracking_And_Registry okApi ⟨1, 1, 2026⟩
        [("n_estimators", "1000")] [[]]).1 =
      [Event.set_experiment "Random_Forest_Experiment", Event.autolog,
       Event.start_run (run_name_of [[]])] ++
      ([("n_estimators", "1000")].map fun kv => Event.log_param kv.1 kv.2) ++
      [Event.to_csv "train_sample.csv" false [[]],
       Event.log_artifact "train_sample.csv",
       Event.log_model (model_name_of (strftime_dmy ⟨1, 1, 2026⟩)),
       Event.register_model
         ("runs:/" ++ okApi.run_id ++ "/" ++
           model_name_of (strftime_dmy ⟨1, 1, 2026⟩))
         (model_name_of (strftime_dmy ⟨1, 1, 2026⟩)),
       Event.update_model_version (model_name_of (strftime_dmy ⟨1, 1, 2026⟩))
         okApi.registered_version
         ("Random Forest model registered on " ++ strftime_dmy ⟨1, 1, 2026⟩),
       Event.end_run] ∧
    ∃ t, (mlflow_tracking_And_Registry okApi ⟨1, 1, 2026⟩
        [("n_estimators", "1000")] [[]]).1 = t ++ [Event.end_run] :=
  ⟨(effect_order_and_scope_closure okApi ⟨1, 1, 2026⟩
      [("n_estimators", "1000")] [[]]).1 rfl,
   (effect_order_and_scope_closure okApi ⟨1, 1, 2026⟩
      [("n_estimators", "1000")] [[]]).2 "Train_size_1" (by decide)⟩

/-- Claim C4: the trainer called without optional arguments builds the
classifier with 1000 trees, seed 42, unbounded depth and parallelism 1, and
never invokes the Tracking Recorder: its trace is empty and its result comes
from that default-configured classifier. -/
theorem default_arguments_config {Clf : Type} (sk : SKLearn Clf)
    (api : MLflowAPI) (now : Date) (tf : List (List ℚ)) (tl : List ℤ)
    (xf : List (List ℚ)) :
    random_forest_no_optional sk api now tf tl xf =
      random_forest sk api now tf tl xf 1000 42 none 1 false ∧
    (random_forest_no_optional sk api now tf tl xf).1 = [] ∧
    ((∃ e, (random_forest_no_optional sk api now tf tl xf).2 =
        Except.error e) ∨
     (∃ clf p q,
        sk.fit (sk.RandomForestClassifier ⟨1000, 42, none, 1⟩) tf tl =
          Except.ok clf ∧
        sk.predict clf xf = Except.ok p ∧
        sk.predict_proba clf xf = Except.ok q ∧
        (random_forest_no_optional sk api now tf tl xf).2 =
          Except.ok (p, q))) :=
  ⟨rfl, random_forest_false_trace sk api now tf tl xf 1000 42 none 1,
   random_forest_cases sk api now tf tl xf 1000 42 none 1 false⟩

/-- Claim C5: with tracking enabled the recorder is invoked after fitting
with the fitted classifier and the training features, and an error inside the
recorder propagates unchanged to the caller of the trainer: the call aborts,
with no retry and no local recovery. -/
theorem recorder_error_propagates {Clf : Type} (sk : SKLearn Clf)
    (api : MLflowAPI) (now : Date) (tf : List (List ℚ)) (tl : List ℤ)
    (xf : List (List ℚ)) (nest seed : Nat) (md : Option Nat) (nj : Int)
    (clf : Clf) (p : List ℤ) (q : List (List ℚ)) (t : List Event) (e : String)
    (hfit : sk.fit (sk.RandomForestClassifier ⟨nest, seed, md, nj⟩) tf tl =
      Except.ok clf)
    (hp : sk.predict clf xf = Except.ok p)
    (hq : sk.predict_proba clf xf = Except.ok q)
    (hrec : mlflow_tracking_And_Registry api now (sk.get_params clf) tf =
      (t, Except.error e)) :
    random_forest sk api now tf tl xf nest seed md nj true =
      (t, Except.error e) := by
  simp [random_forest, hfit, hp, hq, hrec]

/-- Concrete check of recorder_error_propagates: when set_experiment raises,
the trainer call with tracking enabled returns exactly that error. -/
theorem recorder_error_propagates_witness :
    random_forest demoSK failApi ⟨1, 1, 2026⟩ [[0], [1]] [0, 1] [[2]]
        1000 42 none 1 true = ([], Except.error "set_experiment") :=
  recorder_error_propagates demoSK failApi ⟨1, 1, 2026⟩ [[0], [1]] [0, 1]
    [[2]] 1000 42 none 1 [0, 1] [0] [uniform_row 2] [] "set_experiment"
    rfl rfl rfl rfl

/-- Claim C6: the trainer never produces a partial result: every call either
fails with a propagating error or returns the predictions and the
probabilities together, both coming from a successful fit, predict and
predict_proba; no path returns only one of the two. -/
theorem no_partial_result {Clf : Type} (sk : SKLearn Clf) (api : MLflowAPI)
    (now : Date) (tf : List (List ℚ)) (tl : List ℤ) (xf : List (List ℚ))
    (nest seed : Nat) (md : Option Nat) (nj : Int) (fl : Bool) :
    (∃ e, (random_forest sk api now tf tl xf nest seed md nj fl).2 =
        Except.error e) ∨
    (∃ clf p q,
      sk.fit (sk.RandomForestClassifier ⟨nest, seed, md, nj⟩) tf tl =
        Except.ok clf ∧
      sk.predict clf xf = Except.ok p ∧
      sk.predict_proba clf xf = Except.ok q ∧
      (random_forest sk api now tf tl xf nest seed md nj fl).2 =
        Except.ok (p, q)) :=
  random_forest_cases sk api now tf tl xf nest seed md nj fl

/-- Claim C7: the recorder serializes train_features to the fixed relative
file train_sample.csv without the index column and attaches that very file as
the artifact: every serialization and every artifact attachment in any trace
names that file with that data, and a successful invocation performs each of
the two effects exactly once. -/
theorem train_sample_csv_artifact (api : MLflowAPI) (now : Date)
    (params : List (String × String)) (tf : List (List ℚ)) :
    (∀ f idx rows,
      Event.to_csv f idx rows ∈
          (mlflow_tracking_And_Registry api now params tf).1 →
        f = "train_sample.csv" ∧ idx = false ∧ rows = tf) ∧
    (∀ f,
      Event.log_artifact f ∈
          (mlflow_tracking_And_Registry api now params tf).1 →
        f = "train_sample.csv") ∧
    ((mlflow_tracking_And_Registry api now params tf).2 = Except.ok () →
      (mlflow_tracking_And_Registry api now params tf).1.count
          (Event.to_csv "train_sample.csv" false tf) = 1 ∧
      (mlflow_tracking_And_Registry api now params tf).1.count
          (Event.log_artifact "train_sample.csv") = 1) := by
  refine ⟨?_, ?_, ?_⟩
  · intro f idx rows h
    rcases mem_tracking h with
      h2 | h2 | h2 | ⟨k, v, _, h2⟩ | h2 | h2 | h2 | h2 | h2 | h2 <;> simp_all
  · intro f h
    rcases mem_tracking h with
      h2 | h2 | h2 | ⟨k, v, _, h2⟩ | h2 | h2 | h2 | h2 | h2 | h2 <;> simp_all
  · intro h
    rw [tracking_ok_trace h]
    constructor
    · simp [List.count_append, List.count_cons,
        count_in_log_param_map params (Event.to_csv "train_sample.csv" false tf)
          (fun k v => by simp)]
    · simp [List.count_append, List.count_cons,
        count_in_log_param_map params (Event.log_artifact "train_sample.csv")
          (fun k v => by simp)]

/-- Concrete check of train_sample_csv_artifact on a one row training sample
in the all-success environment. -/
theorem train_sample_csv_artifact_witness :
    ("train_sample.csv" = "train_sample.csv" ∧ false = false ∧
      ([[5]] : List (List ℚ)) = [[5]]) ∧
    "train_sample.csv" = "train_sample.csv" ∧
    ((mlflow_tracking_And_Registry okApi ⟨1, 1, 2026⟩ [] [[5]]).1.count
        (Event.to_csv "train_sample.csv" false [[5]]) = 1 ∧
     (mlflow_tracking_And_Registry okApi ⟨1, 1, 2026⟩ [] [[5]]).1.count
        (Event.log_artifact "train_sample.csv") = 1) :=
  ⟨(train_sample_csv_artifact okApi ⟨1, 1, 2026⟩ [] [[5]]).1
      "train_sample.csv" false [[5]] (by decide),
   (train_sample_csv_artifact okApi ⟨1, 1, 2026⟩ [] [[5]]).2.1
      "train_sample.csv" (by decide),
   (train_sample_csv_artifact okApi ⟨1, 1, 2026⟩ [] [[5]]).2.2 rfl⟩

/-- Claim C8: with tracking disabled the trainer is deterministic: its result
does not depend on the tracking environment or on the current date, so two
calls with identical data and seed return identical predictions and
probabilities even when made at different times. -/
theorem deterministic_without_tracking {Clf : Type} (sk : SKLearn Clf)
    (api1 api2 : MLflowAPI) (now1 now2 : Date) (tf : List (List ℚ))
    (tl : List ℤ) (xf : List (List ℚ)) (nest seed : Nat) (md : Option Nat)
    (nj : Int) :
    random_forest sk api1 now1 tf tl xf nest seed md nj false =
    random_forest sk api2 now2 tf tl xf nest seed md nj false := by
  rcases hfit : sk.fit (sk.RandomForestClassifier ⟨nest, seed, md, nj⟩) tf tl
    with e | clf
  · simp [random_forest, hfit]
  rcases hp : sk.predict clf xf with e | p
  · simp [random_forest, hfit, hp]
  rcases hq : sk.predict_proba clf xf with e | q
  · simp [random_forest, hfit, hp, hq]
  · simp [random_forest, hfit, hp, hq]

/-- Claim C9: provided the library meets its contracts on predict and
predict_proba, a call that returns a pair returns a predictions list whose
length is the row count of test_features and a probability matrix with one
row per test row and one column per distinct training label, each row of
which sums to one. -/
theorem prediction_output_shapes {Clf : Type} (sk : SKLearn Clf)
    (api : MLflowAPI) (now : Date) (tf : List (List ℚ)) (tl : List ℤ)
    (xf : List (List ℚ)) (nest seed : Nat) (md : Option Nat) (nj : Int)
    (fl : Bool) (p : List ℤ) (q : List (List ℚ))
    (hpc : PredictLengthContract sk) (hqc : ProbaShapeContract sk)
    (hok : (random_forest sk api now tf tl xf nest seed md nj fl).2 =
      Except.ok (p, q)) :
    p.length = xf.length ∧ q.length = xf.length ∧
    ∀ row ∈ q, row.length = distinct_label_count tl ∧ row.sum = 1 := by
  rcases random_forest_cases sk api now tf tl xf nest seed md nj fl with
    ⟨e, he⟩ | ⟨clf, p2, q2, hfit, hp, hq, hres⟩
  · rw [he] at hok
    exact absurd hok (by simp)
  · rw [hres] at hok
    have hpair : (p2, q2) = (p, q) := Except.ok.inj hok
    obtain ⟨rfl, rfl⟩ : p2 = p ∧ q2 = q :=
      ⟨congrArg Prod.fst hpair, congrArg Prod.snd hpair⟩
    obtain ⟨hql, hrow⟩ := hqc _ _ _ _ _ _ hfit hq
    exact ⟨hpc _ _ _ hp, hql, hrow⟩

/-- Concrete check of prediction_output_shapes with the demo library model on
a binary labeled training set and two test rows. -/
theorem prediction_output_shapes_witness :
    ([0, 0] : List ℤ).length = ([[2], [3]] : List (List ℚ)).length ∧
    ([uniform_row 2, uniform_row 2]).length =
      ([[2], [3]] : List (List ℚ)).length ∧
    ∀ row ∈ [uniform_row 2, uniform_row 2],
      row.length = distinct_label_count [0, 1] ∧ row.sum = 1 :=
  prediction_output_shapes demoSK okApi ⟨1, 1, 2026⟩ [[0], [1]] [0, 1]
    [[2], [3]] 1000 42 none 1 false [0, 0] [uniform_row 2, uniform_row 2]
    demoSK_predict_contract demoSK_proba_contract rfl

/-- Claim C10: enabling tracking does not change the returned value: the pair
is fully computed before the recorder runs, and when the recorder succeeds
the call with tracking enabled returns exactly what the same call returns
with tracking disabled. -/
theorem tracking_frame_property {Clf : Type} (sk : SKLearn Clf)
    (api : MLflowAPI) (now : Date) (tf : List (List ℚ)) (tl : List ℤ)
    (xf : List (List ℚ)) (nest seed : Nat) (md : Option Nat) (nj : Int)
    (hok : ∀ ps,
      (mlflow_tracking_And_Registry api now ps tf).2 = Except.ok ()) :
    (random_forest sk api now tf tl xf nest seed md nj true).2 =
    (random_forest sk api now tf tl xf nest seed md nj false).2 := by
  rcases hfit : sk.fit (sk.RandomForestClassifier ⟨nest, seed, md, nj⟩) tf tl
    with e | clf
  · simp [random_forest, hfit]
  rcases hp : sk.predict clf xf with e | p
  · simp [random_forest, hfit, hp]
  rcases hq : sk.predict_proba clf xf with e | q
  · simp [random_forest, hfit, hp, hq]
  · have h := hok (sk.get_params clf)
    rcases htr : mlflow_tracking_And_Registry api now (sk.get_params clf) tf
      with ⟨t, r⟩
    rw [htr] at h
    cases r with
    | ok u =>
        cases u
        simp [random_forest, hfit, hp, hq, htr]
    | error e => exact absurd h (by simp)

/-- Concrete check of tracking_frame_property with the demo library model in
the all-success environment. -/
theorem tracking_frame_property_witness :
    (random_forest demoSK okApi ⟨1, 1, 2026⟩ [[0], [1]] [0, 1] [[2]]
        1000 42 none 1 true).2 =
    (random_forest demoSK okApi ⟨1, 1, 2026⟩ [[0], [1]] [0, 1] [[2]]
        1000 42 none 1 false).2 :=
  tracking_frame_property demoSK okApi ⟨1, 1, 2026⟩ [[0], [1]] [0, 1] [[2]]
    1000 42 none 1 (fun ps => okApi_tracking_ok ⟨1, 1, 2026⟩ ps [[0], [1]])

end ActSNClass
